import Mathlib

/-!
Verification of `monitor_tabelas.py` (monitorTabelasIBPTax).

The program is embedded shallowly.  Paths are modelled by their file names
(all files live in one directory), the filesystem by an association list
from names to byte lists, and the external world (pandas decoding, HTTP,
OS-level filesystem failures, the current date) by an explicit environment
of oracles threaded through every function.  Python exceptions become an
inductive type `PyExc`; a function that can raise returns `Except PyExc`
together with the filesystem it leaves behind.
-/

namespace MonitorTabelas

/-- Decimal digits of a natural number (most significant first), with fuel
so that the definition is structurally recursive and kernel-reducible.
Mirrors Python's `str(n)` for the fuel `n + 1` used by `pyStrNat`. -/
def natToDecAux : Nat → Nat → List Char
  | 0, _ => []
  | fuel + 1, n =>
    if n < 10 then [Nat.digitChar n]
    else natToDecAux fuel (n / 10) ++ [Nat.digitChar (n % 10)]

/-- Decimal representation of `n`, as Python's `str(n)` / `f"{n}"`. -/
def natToDec (n : Nat) : List Char :=
  natToDecAux (n + 1) n

/-- Python `str(n)` as a `String`. -/
def pyStrNat (n : Nat) : String :=
  ⟨natToDec n⟩

/-- Zero-pad to two digits: `strftime` `%d` / `%m`. -/
def pad2 (n : Nat) : String :=
  if n < 10 then "0" ++ pyStrNat n else pyStrNat n

/-- Zero-pad to four digits: `strftime` `%Y`. -/
def pad4 (n : Nat) : String :=
  if n < 10 then "000" ++ pyStrNat n
  else if n < 100 then "00" ++ pyStrNat n
  else if n < 1000 then "0" ++ pyStrNat n
  else pyStrNat n

/-- A Python `datetime.date`: year, month, day. -/
structure PyDate where
  year : Nat
  month : Nat
  day : Nat
deriving DecidableEq, Repr

/-- `a < b` on Python dates (lexicographic on year, month, day). -/
def dataAntes (a b : PyDate) : Prop :=
  a.year < b.year ∨
    (a.year = b.year ∧
      (a.month < b.month ∨ (a.month = b.month ∧ a.day < b.day)))

instance (a b : PyDate) : Decidable (dataAntes a b) := by
  unfold dataAntes; infer_instance

/-- Boolean form of the date comparison used by the program. -/
def pyDateLtB (a b : PyDate) : Bool :=
  decide (dataAntes a b)

/-- Python `max(d :: ds)`: fold keeping the current maximum, replacing it
only on a strictly larger element. -/
def maxData (d : PyDate) (ds : List PyDate) : PyDate :=
  ds.foldl (fun acc x => if pyDateLtB acc x then x else acc) d

/-- `date.strftime("%d-%m-%Y")`. -/
def fmtData (d : PyDate) : String :=
  pad2 d.day ++ "-" ++ pad2 d.month ++ "-" ++ pad4 d.year

/-- The Python exception classes the program raises or catches. -/
inductive PyExc where
  | fileNotFound (msg : String)
  | valueError (msg : String)
  | runtimeError (msg : String)
  | osError (msg : String)
  | outroErro (msg : String)
deriving DecidableEq, Repr

/-- Whether `except (FileNotFoundError, ValueError, RuntimeError)` in
`processar_arquivo` catches the exception.  An `OSError` that is not a
`FileNotFoundError` (for example `PermissionError`) is not caught. -/
def excecaoCapturada : PyExc → Bool
  | .fileNotFound _ => true
  | .valueError _ => true
  | .runtimeError _ => true
  | .osError _ => false
  | .outroErro _ => false

/-- The filesystem: file name to byte content, first binding wins. -/
def FS : Type := List (String × List Nat)

instance : DecidableEq FS := by
  unfold FS; infer_instance

/-- Read a file's bytes, `none` when no file with that name exists. -/
def fsObter : FS → String → Option (List Nat)
  | [], _ => none
  | kv :: resto, nome => if kv.1 = nome then some kv.2 else fsObter resto nome

/-- `Path.exists()`. -/
def fsExiste (fs : FS) (nome : String) : Bool :=
  (fsObter fs nome).isSome

/-- `Path.unlink()` (also used to drop the source entry of a rename). -/
def fsRemover : FS → String → FS
  | [], _ => []
  | kv :: resto, nome =>
    if kv.1 = nome then fsRemover resto nome else kv :: fsRemover resto nome

/-- Create or truncate-and-write a file (`open(nome, "wb")` plus writes, or
the target side of `os.replace` / `Path.rename`). -/
def fsGravar (fs : FS) (nome : String) (conteudo : List Nat) : FS :=
  (nome, conteudo) :: fsRemover fs nome

/-- Length of the longest file name present (used to bound the rename
collision search). -/
def comprimentoChaves : FS → Nat
  | [] => 0
  | kv :: resto => max kv.1.length (comprimentoChaves resto)

/-- Index of the last `'.'` in a character list, if any. -/
def ultimoPonto : List Char → Option Nat
  | [] => none
  | c :: resto =>
    match ultimoPonto resto with
    | some j => some (j + 1)
    | none => if c = '.' then some 0 else none

/-- Where `pathlib` splits a name into stem and suffix: the index of the
last dot when it is neither the first nor the last character, otherwise
the full length (empty suffix). -/
def pontoCorte (cs : List Char) : Nat :=
  match ultimoPonto cs with
  | some i => if 0 < i ∧ i + 1 < cs.length then i else cs.length
  | none => cs.length

/-- `Path(s).stem`. -/
def pyStem (s : String) : String :=
  ⟨s.data.take (pontoCorte s.data)⟩

/-- `Path(s).suffix`. -/
def pySuffix (s : String) : String :=
  ⟨s.data.drop (pontoCorte s.data)⟩

/-- `Path.with_suffix`: replace the suffix, keeping the stem. -/
def comSufixo (p novoSufixo : String) : String :=
  pyStem p ++ novoSufixo

/-- The temporary download path `destino.with_suffix(destino.suffix + ".tmp")`. -/
def caminhoTemporario (destino : String) : String :=
  comSufixo destino (pySuffix destino ++ ".tmp")

/-- The three `pd.read_csv` keyword sets tried by `ler_csv`:
`{}`, `{"encoding": "utf-8"}`, `{"encoding": "latin-1"}`. -/
inductive Estrategia where
  | padrao
  | utf8
  | latin1
deriving DecidableEq, Repr

/-- The part of a parsed `DataFrame` the program looks at: the column
names, and the `vigenciafim` column after `pd.to_datetime(..., dayfirst=True,
errors="coerce").dt.date` (`none` models a value coerced to `NaT`). -/
structure Tabela where
  colunas : List String
  vigenciafim : List (Option PyDate)
deriving DecidableEq, Repr

/-- The HTTP response as the program observes it: final status code and the
concatenation of the streamed body chunks. -/
structure RespostaHttp where
  status : Nat
  corpo : List Nat
deriving DecidableEq, Repr

/-- The external world: how bytes decode under each `read_csv` attempt,
today's date, the outcome of `requests.get` (`error` models a
`RequestException`), and OS-level failures of writing the temporary file,
of `os.replace`, and of `Path.rename`. -/
structure Env where
  decodificar : List Nat → Estrategia → Except PyExc Tabela
  hoje : PyDate
  respostaHttp : Except String RespostaHttp
  erroGravacao : Option String
  erroSubstituir : Option String
  erroRenomear : Option String

/-- One `pd.read_csv(caminho, sep=None, engine="python", **kwargs)` attempt:
a missing file raises `FileNotFoundError`; otherwise the decode oracle
decides the outcome for this encoding strategy. -/
def tentativaLerCsv (env : Env) (fs : FS) (caminho : String)
    (estrategia : Estrategia) : Except PyExc Tabela :=
  match fsObter fs caminho with
  | none => .error (.fileNotFound ("Arquivo inexistente: " ++ caminho))
  | some conteudo => env.decodificar conteudo estrategia

/-- The `for kwargs in tentativas` loop of `ler_csv`, carrying
`ultimo_erro`. -/
def lacoLerCsv (env : Env) (fs : FS) (caminho : String) :
    List Estrategia → Option PyExc → Except PyExc Tabela
  | [], some e => .error e
  | [], none => .error (.runtimeError "Falha inesperada ao ler o CSV.")
  | estrategia :: resto, _ =>
    match tentativaLerCsv env fs caminho estrategia with
    | .ok df => .ok df
    | .error e => lacoLerCsv env fs caminho resto (some e)

/-- The ordered list `tentativas` of `ler_csv`. -/
def tentativas : List Estrategia :=
  [.padrao, .utf8, .latin1]

/-- `ler_csv`: try the default decode, then utf-8, then latin-1; first
success wins, otherwise the last error is raised. -/
def ler_csv (env : Env) (fs : FS) (caminho : String) : Except PyExc Tabela :=
  lacoLerCsv env fs caminho tentativas none

/-- `verificar_validade`: read the file (re-raising `FileNotFoundError`,
wrapping any other read error in `RuntimeError`), require the
`vigenciafim` column, drop unparsable dates, require at least one valid
date, and compare the maximum against today (dates only). -/
def verificar_validade (env : Env) (fs : FS) (caminho : String) :
    Except PyExc (Bool × PyDate) :=
  match ler_csv env fs caminho with
  | .error (.fileNotFound m) => .error (.fileNotFound m)
  | .error _ => .error (.runtimeError ("Erro ao ler '" ++ caminho ++ "'"))
  | .ok df =>
    if "vigenciafim" ∈ df.colunas then
      match df.vigenciafim.filterMap id with
      | [] =>
        .error (.valueError
          ("Nenhuma data valida encontrada em 'vigenciafim' de '" ++ caminho ++ "'."))
      | d :: ds =>
        let ultimaData := maxData d ds
        .ok (pyDateLtB ultimaData env.hoje, ultimaData)
    else
      .error (.valueError ("Coluna 'vigenciafim' nao encontrada em '" ++ caminho ++ "'."))

/-- The renamed-file base name `f"{caminho.stem}_{data_fmt}{caminho.suffix}"`. -/
def nomeBase (caminho : String) (dataFmt : String) : String :=
  pyStem caminho ++ "_" ++ dataFmt ++ pySuffix caminho

/-- The numbered candidate `f"{caminho.stem}_{data_fmt}({contador}){caminho.suffix}"`. -/
def candidato (caminho : String) (dataFmt : String) (contador : Nat) : String :=
  pyStem caminho ++ "_" ++ dataFmt ++ "(" ++ pyStrNat contador ++ ")" ++ pySuffix caminho

/-- The `while True` collision search of `renomear_arquivo_antigo`, made
total with fuel; `limiteBusca` below always provides enough fuel for a
free name to be found, so the fuel-exhausted fallback is unreachable. -/
def buscarLivre (fs : FS) (cand : Nat → String) : Nat → Nat → String
  | contador, 0 => cand contador
  | contador, fuel + 1 =>
    if fsExiste fs (cand contador) then buscarLivre fs cand (contador + 1) fuel
    else cand contador

/-- Fuel bound for the collision search: a counter with more decimal digits
than the longest existing file name yields a name longer than every
existing one, hence free. -/
def limiteBusca (fs : FS) : Nat :=
  10 ^ (comprimentoChaves fs + 1)

/-- `renomear_arquivo_antigo`: require the file to exist, build
`<stem>_<DD-MM-YYYY><ext>`, on collision search `(1)`, `(2)`, … for the
first free name, then rename.  `env.erroRenomear` models an OS-level
failure of `Path.rename` (for example `PermissionError`). -/
def renomear_arquivo_antigo (env : Env) (fs : FS) (caminho : String)
    (dataVencimento : PyDate) : Except PyExc (String × FS) :=
  match fsObter fs caminho with
  | none => .error (.fileNotFound ("Arquivo nao encontrado: " ++ caminho))
  | some conteudo =>
    let dataFmt := fmtData dataVencimento
    let novoCaminho :=
      if fsExiste fs (nomeBase caminho dataFmt) then
        buscarLivre fs (candidato caminho dataFmt) 1 (limiteBusca fs)
      else nomeBase caminho dataFmt
    match env.erroRenomear with
    | some m => .error (.osError m)
    | none => .ok (novoCaminho, fsGravar (fsRemover fs caminho) novoCaminho conteudo)

/-- `baixar_nova_tabela`: GET (a `RequestException`, and `raise_for_status`
on a 4xx/5xx status, abort before the temporary file is touched and are
wrapped in `RuntimeError`); then stream the body to `<path>.tmp`, fail on
an empty body, and `os.replace` onto the destination; any failure in that
block removes the temporary file and is wrapped in `RuntimeError`. -/
def baixar_nova_tabela (env : Env) (fs : FS) (nomeArquivo : String) :
    Except PyExc String × FS :=
  let destino := nomeArquivo
  let temporario := caminhoTemporario destino
  match env.respostaHttp with
  | .error m => (.error (.runtimeError ("Falha no download: " ++ m)), fs)
  | .ok resp =>
    if 400 ≤ resp.status ∧ resp.status < 600 then
      (.error (.runtimeError ("Falha no download: status " ++ pyStrNat resp.status)), fs)
    else
      match env.erroGravacao with
      | some m =>
        (.error (.runtimeError ("Erro ao salvar '" ++ destino ++ "': " ++ m)),
          fsRemover fs temporario)
      | none =>
        let fs1 := fsGravar fs temporario resp.corpo
        if resp.corpo.length = 0 then
          (.error (.runtimeError ("Erro ao salvar '" ++ destino ++ "': Arquivo baixado esta vazio.")),
            fsRemover fs1 temporario)
        else
          match env.erroSubstituir with
          | some m =>
            (.error (.runtimeError ("Erro ao salvar '" ++ destino ++ "': " ++ m)),
              fsRemover fs1 temporario)
          | none => (.ok destino, fsGravar (fsRemover fs1 temporario) destino resp.corpo)

/-- The four reconciliation shapes; the Python function returns the Boolean
`resultado ≠ falhou` (see `processar_arquivo_bool`). -/
inductive Resultado where
  | baixouNovo
  | substituiuVencido
  | aindaValido
  | falhou
deriving DecidableEq, Repr

/-- `processar_arquivo`: absent file means download; otherwise check
validity, rename and re-download when expired.  The single
`except (FileNotFoundError, ValueError, RuntimeError)` turns caught
exceptions into the `falhou` outcome (Python `False`); any other
exception propagates as `.error`. -/
def processar_arquivo (env : Env) (fs : FS) (caminho : String) :
    Except PyExc Resultado × FS :=
  if fsExiste fs caminho then
    match verificar_validade env fs caminho with
    | .error e => if excecaoCapturada e then (.ok .falhou, fs) else (.error e, fs)
    | .ok (expirado, dataVenc) =>
      if expirado then
        match renomear_arquivo_antigo env fs caminho dataVenc with
        | .error e => if excecaoCapturada e then (.ok .falhou, fs) else (.error e, fs)
        | .ok (_, fs1) =>
          match baixar_nova_tabela env fs1 caminho with
          | (.error e, fs2) =>
            if excecaoCapturada e then (.ok .falhou, fs2) else (.error e, fs2)
          | (.ok _, fs2) => (.ok .substituiuVencido, fs2)
      else (.ok .aindaValido, fs)
  else
    match baixar_nova_tabela env fs caminho with
    | (.error e, fs') =>
      if excecaoCapturada e then (.ok .falhou, fs') else (.error e, fs')
    | (.ok _, fs') => (.ok .baixouNovo, fs')

/-- The Boolean actually returned by the Python `processar_arquivo`. -/
def processar_arquivo_bool (env : Env) (fs : FS) (caminho : String) :
    Except PyExc Bool × FS :=
  match processar_arquivo env fs caminho with
  | (.error e, fs') => (.error e, fs')
  | (.ok r, fs') => (.ok (match r with | .falhou => false | _ => true), fs')

/-- The configured file names. -/
def ARQUIVOS_ORIGINAIS : List String :=
  ["TabelaIBPTaxBA15.1.B.csv", "TabelaIBPTax15.1.B.csv"]

/-- The `for nome in ARQUIVOS_ORIGINAIS` loop of `executar_uma_vez`,
carrying `houve_falha`. -/
def lacoUmaVez (env : Env) : List String → FS → Bool → Except PyExc Nat × FS
  | [], fs, houveFalha => (.ok (if houveFalha then 1 else 0), fs)
  | nome :: resto, fs, houveFalha =>
    match processar_arquivo_bool env fs nome with
    | (.error e, fs') => (.error e, fs')
    | (.ok sucesso, fs') => lacoUmaVez env resto fs' (houveFalha || !sucesso)

/-- `executar_uma_vez`: process every configured file, return 1 if any
failed, else 0. -/
def executar_uma_vez (env : Env) (fs : FS) : Except PyExc Nat × FS :=
  lacoUmaVez env ARQUIVOS_ORIGINAIS fs false

/-- The single-instance lock file name `f"{APP_NAME}.lock"`. -/
def ARQUIVO_LOCK : String := "MonitorTabelaIBPTax.lock"

/-- The `while not stop_event.is_set()` loop of `executar_em_background`,
run for the number of cycles completed before the stop event is observed;
the per-cycle exit code is only logged, never returned. -/
def lacoCiclos (env : Env) : Nat → FS → Except PyExc Unit × FS
  | 0, fs => (.ok (), fs)
  | n + 1, fs =>
    match executar_uma_vez env fs with
    | (.error e, fs') => (.error e, fs')
    | (.ok _, fs') => lacoCiclos env n fs'

/-- `executar_em_background`: lock acquisition failure returns 1; otherwise
run cycles until stopped and fall off the end of the function, which in
Python returns `None` (modelled as `none`); the lock is released in the
`finally` block. -/
def executar_em_background (env : Env) (fs : FS) (ciclos : Nat) :
    Except PyExc (Option Nat) × FS :=
  if fsExiste fs ARQUIVO_LOCK then (.ok (some 1), fs)
  else
    match lacoCiclos env ciclos (fsGravar fs ARQUIVO_LOCK []) with
    | (.error e, fs') => (.error e, fsRemover fs' ARQUIVO_LOCK)
    | (.ok _, fs') => (.ok none, fsRemover fs' ARQUIVO_LOCK)

/-- `sys.exit(main())`: `sys.exit(None)` exits with code 0, `sys.exit(n)`
with code `n`. -/
def codigoSaidaProcesso : Option Nat → Nat
  | none => 0
  | some n => n

/-- Modelled from the spec: the ordered list of per-file success Booleans
of one batch run (the Python loop only aggregates them into a flag); used
to state that no failure aborts the batch and that the exit code reflects
exactly the presence of a failure. -/
def resultadosLote (env : Env) : List String → FS → Except PyExc (List Bool) × FS
  | [], fs => (.ok [], fs)
  | nome :: resto, fs =>
    match processar_arquivo_bool env fs nome with
    | (.error e, fs') => (.error e, fs')
    | (.ok b, fs') =>
      match resultadosLote env resto fs' with
      | (.error e, fs'') => (.error e, fs'')
      | (.ok bs, fs'') => (.ok (b :: bs), fs'')

/-! ### Concrete fixtures used to exercise the theorems -/

/-- A table whose maximum validity date is far in the future. -/
def tabelaValida : Tabela :=
  ⟨["codigo", "vigenciafim"], [some ⟨2099, 12, 31⟩, none]⟩

/-- A table whose single validity date is 2020-01-01. -/
def tabelaVencida : Tabela :=
  ⟨["vigenciafim"], [some ⟨2020, 1, 1⟩]⟩

/-- A table without the required column. -/
def tabelaSemColuna : Tabela :=
  ⟨["codigo"], []⟩

/-- A table with the required column but no parseable date. -/
def tabelaSemDatas : Tabela :=
  ⟨["vigenciafim"], [none, none]⟩

/-- A healthy world: bytes `[1]` decode to a valid table, anything else is
unreadable; HTTP serves a 200 response with body `[1]`; no OS failures. -/
def envLote : Env where
  decodificar := fun conteudo _ =>
    if conteudo = [1] then .ok tabelaValida else .error (.valueError "conteudo ilegivel")
  hoje := ⟨2025, 6, 1⟩
  respostaHttp := .ok ⟨200, [1]⟩
  erroGravacao := none
  erroSubstituir := none
  erroRenomear := none

/-- A world where every file decodes to an expired table and the OS-level
rename fails with a `PermissionError`. -/
def envQuedaRenomear : Env where
  decodificar := fun _ _ => .ok tabelaVencida
  hoje := ⟨2025, 6, 1⟩
  respostaHttp := .ok ⟨200, [1, 2]⟩
  erroGravacao := none
  erroSubstituir := none
  erroRenomear := some "Permission denied"

/-- A world with no network: every file decodes to an expired table and
`requests.get` raises. -/
def envSemRede : Env where
  decodificar := fun _ _ => .ok tabelaVencida
  hoje := ⟨2025, 6, 1⟩
  respostaHttp := .error "ConnectionError"
  erroGravacao := none
  erroSubstituir := none
  erroRenomear := none

/-- A world where the GET succeeds with a 200 status but an empty body. -/
def envCorpoVazio : Env where
  decodificar := fun _ _ => .error (.valueError "conteudo ilegivel")
  hoje := ⟨2025, 6, 1⟩
  respostaHttp := .ok ⟨200, []⟩
  erroGravacao := none
  erroSubstituir := none
  erroRenomear := none

/-- A world where the local file (bytes `[3]`) is expired and the server
serves a file (bytes `[4]`) that is itself already expired. -/
def envDuasVencidas : Env where
  decodificar := fun conteudo _ =>
    if conteudo = [3] then .ok ⟨["vigenciafim"], [some ⟨2020, 1, 1⟩]⟩
    else if conteudo = [4] then .ok ⟨["vigenciafim"], [some ⟨2019, 5, 5⟩]⟩
    else .error (.valueError "conteudo ilegivel")
  hoje := ⟨2025, 1, 1⟩
  respostaHttp := .ok ⟨200, [4]⟩
  erroGravacao := none
  erroSubstituir := none
  erroRenomear := none

/-- A world where bytes `[5]` decode to a table without the required
column and bytes `[6]` to a table with the column but no valid date. -/
def envSemFormato : Env where
  decodificar := fun conteudo _ =>
    if conteudo = [5] then .ok tabelaSemColuna
    else if conteudo = [6] then .ok tabelaSemDatas
    else .error (.valueError "conteudo ilegivel")
  hoje := ⟨2025, 6, 1⟩
  respostaHttp := .ok ⟨200, [1]⟩
  erroGravacao := none
  erroSubstituir := none
  erroRenomear := none

/-- The first configured file exists with unreadable bytes, so its
reconciliation fails; the second is absent and downloads fine. -/
def fsLote : FS := [("TabelaIBPTaxBA15.1.B.csv", [9])]

/-- A single expired file. -/
def fsVencido : FS := [("Tabela.csv", [65])]

/-- A canonical file plus a stale leftover temporary file. -/
def fsTmpAntigo : FS := [("f.csv.tmp", [7]), ("f.csv", [3])]

/-! ### Association-list filesystem lemmas -/

theorem fsObter_fsGravar_mesmo (fs : FS) (nome : String) (conteudo : List Nat) :
    fsObter (fsGravar fs nome conteudo) nome = some conteudo := by
  simp [fsGravar, fsObter]

theorem fsObter_fsRemover_mesmo (fs : FS) (nome : String) :
    fsObter (fsRemover fs nome) nome = none := by
  induction fs with
  | nil => rfl
  | cons kv resto ih =>
    by_cases h : kv.1 = nome <;> simp [fsRemover, fsObter, h, ih]

theorem fsObter_fsRemover_outro (fs : FS) (nome outro : String) (h : outro ≠ nome) :
    fsObter (fsRemover fs nome) outro = fsObter fs outro := by
  induction fs with
  | nil => rfl
  | cons kv resto ih =>
    show fsObter (if kv.1 = nome then fsRemover resto nome else kv :: fsRemover resto nome)
        outro = if kv.1 = outro then some kv.2 else fsObter resto outro
    by_cases h1 : kv.1 = nome
    · have h2 : ¬ kv.1 = outro := fun he => h (he ▸ h1)
      rw [if_pos h1, if_neg h2, ih]
    · rw [if_neg h1]
      show (if kv.1 = outro then some kv.2 else fsObter (fsRemover resto nome) outro) =
        if kv.1 = outro then some kv.2 else fsObter resto outro
      rw [ih]

theorem fsObter_fsGravar_outro (fs : FS) (nome outro : String) (conteudo : List Nat)
    (h : outro ≠ nome) :
    fsObter (fsGravar fs nome conteudo) outro = fsObter fs outro := by
  have h1 : ¬ nome = outro := fun he => h he.symm
  simp [fsGravar, fsObter, h1, fsObter_fsRemover_outro fs nome outro h]

theorem fsExiste_comprimento (fs : FS) (nome : String)
    (h : fsExiste fs nome = true) : nome.length ≤ comprimentoChaves fs := by
  induction fs with
  | nil => simp [fsExiste, fsObter] at h
  | cons kv resto ih =>
    by_cases h1 : kv.1 = nome
    · subst h1
      exact le_max_left _ _
    · simp only [fsExiste, fsObter, h1, if_neg] at h
      exact le_trans (ih h) (le_max_right _ _)

/-! ### String and path lemmas -/

theorem string_data_append (a b : String) : (a ++ b).data = a.data ++ b.data := rfl

theorem string_length_append (a b : String) :
    (a ++ b).length = a.length + b.length := by
  show (a ++ b).data.length = a.data.length + b.data.length
  rw [string_data_append, List.length_append]

theorem string_length_mk (cs : List Char) : (String.mk cs).length = cs.length := rfl

theorem pyStem_append_pySuffix (s : String) : pyStem s ++ pySuffix s = s := by
  show String.mk (s.data.take (pontoCorte s.data) ++ s.data.drop (pontoCorte s.data)) = s
  rw [List.take_append_drop]

theorem pyStem_length_add (s : String) :
    (pyStem s).length + (pySuffix s).length = s.length := by
  have h := congrArg String.length (pyStem_append_pySuffix s)
  rwa [string_length_append] at h

theorem caminhoTemporario_eq (p : String) : caminhoTemporario p = p ++ ".tmp" := by
  show pyStem p ++ (pySuffix p ++ ".tmp") = p ++ ".tmp"
  rw [← String.append_assoc, pyStem_append_pySuffix]

theorem caminhoTemporario_ne (p : String) : caminhoTemporario p ≠ p := by
  intro h
  have h1 := congrArg String.length h
  rw [caminhoTemporario_eq, string_length_append] at h1
  have h2 : (".tmp" : String).length = 4 := rfl
  omega

/-! ### Decimal representation lemmas -/

theorem natToDecAux_succ (fuel n : Nat) :
    natToDecAux (fuel + 1) n =
      if n < 10 then [Nat.digitChar n]
      else natToDecAux fuel (n / 10) ++ [Nat.digitChar (n % 10)] := rfl

theorem natToDecAux_fuel (f1 f2 n : Nat) (h1 : n < f1) (h2 : n < f2) :
    natToDecAux f1 n = natToDecAux f2 n := by
  induction f1 generalizing f2 n with
  | zero => exact absurd h1 (Nat.not_lt_zero n)
  | succ f1 ih =>
    cases f2 with
    | zero => exact absurd h2 (Nat.not_lt_zero n)
    | succ f2 =>
      rw [natToDecAux_succ, natToDecAux_succ]
      by_cases h10 : n < 10
      · rw [if_pos h10, if_pos h10]
      · have hd : n / 10 < n := Nat.div_lt_self (by omega) (by omega)
        rw [if_neg h10, if_neg h10, ih f2 (n / 10) (by omega) (by omega)]

theorem natToDec_eq (n : Nat) :
    natToDec n =
      if n < 10 then [Nat.digitChar n]
      else natToDec (n / 10) ++ [Nat.digitChar (n % 10)] := by
  by_cases h10 : n < 10
  · rw [natToDec, natToDecAux_succ, if_pos h10, if_pos h10]
  · have hd : n / 10 < n := Nat.div_lt_self (by omega) (by omega)
    rw [natToDec, natToDecAux_succ, if_neg h10, if_neg h10, natToDec,
      natToDecAux_fuel n (n / 10 + 1) (n / 10) (by omega) (by omega)]

theorem natToDec_length_pos (n : Nat) : 0 < (natToDec n).length := by
  rw [natToDec_eq]
  by_cases h10 : n < 10 <;> simp [h10]

theorem natToDec_length_gt (k : Nat) :
    ∀ n : Nat, 10 ^ k ≤ n → k < (natToDec n).length := by
  induction k with
  | zero => intro n _; exact natToDec_length_pos n
  | succ k ih =>
    intro n hn
    have h10 : ¬ n < 10 := by
      have : (10 : Nat) ≤ 10 ^ (k + 1) := by
        calc (10 : Nat) = 10 ^ 1 := (pow_one 10).symm
        _ ≤ 10 ^ (k + 1) := Nat.pow_le_pow_right (by omega) (by omega)
      omega
    have hdiv : 10 ^ k ≤ n / 10 := by
      rw [Nat.le_div_iff_mul_le (by omega)]
      calc 10 ^ k * 10 = 10 ^ (k + 1) := (pow_succ 10 k).symm
      _ ≤ n := hn
    have := ih (n / 10) hdiv
    rw [natToDec_eq]
    simp only [h10, if_false, List.length_append, List.length_cons, List.length_nil]
    omega

/-! ### Name-length lemmas and the rename collision search -/

theorem nomeBase_comprimento (caminho dataFmt : String) :
    (nomeBase caminho dataFmt).length = caminho.length + 1 + dataFmt.length := by
  show (pyStem caminho ++ "_" ++ dataFmt ++ pySuffix caminho).length = _
  rw [string_length_append, string_length_append, string_length_append]
  have h1 : ("_" : String).length = 1 := rfl
  have h2 := pyStem_length_add caminho
  omega

theorem candidato_comprimento (caminho dataFmt : String) (n : Nat) :
    (candidato caminho dataFmt n).length =
      caminho.length + 3 + dataFmt.length + (pyStrNat n).length := by
  show (pyStem caminho ++ "_" ++ dataFmt ++ "(" ++ pyStrNat n ++ ")" ++ pySuffix caminho).length = _
  rw [string_length_append, string_length_append, string_length_append,
    string_length_append, string_length_append, string_length_append]
  have h1 : ("_" : String).length = 1 := rfl
  have h2 : ("(" : String).length = 1 := rfl
  have h3 : (")" : String).length = 1 := rfl
  have h4 := pyStem_length_add caminho
  omega

theorem candidato_livre_no_limite (fs : FS) (caminho dataFmt : String) :
    fsExiste fs (candidato caminho dataFmt (limiteBusca fs)) = false := by
  by_contra h
  have hex : fsExiste fs (candidato caminho dataFmt (limiteBusca fs)) = true := by
    revert h
    cases fsExiste fs (candidato caminho dataFmt (limiteBusca fs)) <;> simp
  have hlen := fsExiste_comprimento fs _ hex
  rw [candidato_comprimento] at hlen
  have hdig : comprimentoChaves fs + 1 < (natToDec (limiteBusca fs)).length :=
    natToDec_length_gt (comprimentoChaves fs + 1) (limiteBusca fs) (le_refl _)
  have hstr : (pyStrNat (limiteBusca fs)).length = (natToDec (limiteBusca fs)).length := rfl
  omega

theorem buscarLivre_spec (fs : FS) (cand : Nat → String) :
    ∀ fuel c, (∃ k, k < fuel ∧ fsExiste fs (cand (c + k)) = false) →
      ∃ j, buscarLivre fs cand c fuel = cand (c + j) ∧
        fsExiste fs (cand (c + j)) = false ∧
        ∀ i, i < j → fsExiste fs (cand (c + i)) = true := by
  intro fuel
  induction fuel with
  | zero =>
    intro c h
    rcases h with ⟨k, hk, _⟩
    exact absurd hk (Nat.not_lt_zero k)
  | succ fuel ih =>
    intro c h
    by_cases hc : fsExiste fs (cand c) = true
    · have hrec : ∃ k, k < fuel ∧ fsExiste fs (cand (c + 1 + k)) = false := by
        rcases h with ⟨k, hk, hfree⟩
        cases k with
        | zero =>
          rw [Nat.add_zero] at hfree
          rw [hc] at hfree
          cases hfree
        | succ k =>
          refine ⟨k, by omega, ?_⟩
          have : c + 1 + k = c + (k + 1) := by omega
          rw [this]
          exact hfree
      rcases ih (c + 1) hrec with ⟨j, heq, hfree, hmin⟩
      refine ⟨j + 1, ?_, ?_, ?_⟩
      · show (if fsExiste fs (cand c) then buscarLivre fs cand (c + 1) fuel else cand c) = _
        rw [if_pos hc, heq]
        have : c + 1 + j = c + (j + 1) := by omega
        rw [this]
      · have : c + (j + 1) = c + 1 + j := by omega
        rw [this]
        exact hfree
      · intro i hi
        cases i with
        | zero => rw [Nat.add_zero]; exact hc
        | succ i =>
          have : c + (i + 1) = c + 1 + i := by omega
          rw [this]
          exact hmin i (by omega)
    · have hc' : fsExiste fs (cand c) = false := by
        revert hc
        cases fsExiste fs (cand c) <;> simp
      refine ⟨0, ?_, by rw [Nat.add_zero]; exact hc', fun i hi => absurd hi (Nat.not_lt_zero i)⟩
      show (if fsExiste fs (cand c) then buscarLivre fs cand (c + 1) fuel else cand c) = cand (c + 0)
      rw [if_neg (by rw [hc']; exact Bool.false_ne_true), Nat.add_zero]

/-- Full characterisation of `renomear_arquivo_antigo` on an existing file
when the OS-level rename succeeds: the chosen name was not previously in
use (nothing is overwritten), it is strictly longer than the original
name, and it is the base name when free, otherwise the numbered candidate
with the smallest positive counter whose name is free. -/
theorem renomear_carac (env : Env) (fs : FS) (caminho : String) (d : PyDate)
    (conteudo : List Nat) (hob : fsObter fs caminho = some conteudo)
    (hren : env.erroRenomear = none) :
    ∃ novo, renomear_arquivo_antigo env fs caminho d =
        .ok (novo, fsGravar (fsRemover fs caminho) novo conteudo) ∧
      fsExiste fs novo = false ∧ caminho.length < novo.length ∧
      ((fsExiste fs (nomeBase caminho (fmtData d)) = false ∧
          novo = nomeBase caminho (fmtData d)) ∨
        (fsExiste fs (nomeBase caminho (fmtData d)) = true ∧
          ∃ n, 1 ≤ n ∧ novo = candidato caminho (fmtData d) n ∧
            fsExiste fs (candidato caminho (fmtData d) n) = false ∧
            ∀ m, 1 ≤ m → m < n → fsExiste fs (candidato caminho (fmtData d) m) = true)) := by
  unfold renomear_arquivo_antigo
  rw [hob, hren]
  dsimp only
  by_cases hbase : fsExiste fs (nomeBase caminho (fmtData d)) = true
  · have hlivre : ∃ k, k < limiteBusca fs ∧
        fsExiste fs (candidato caminho (fmtData d) (1 + k)) = false := by
      have hpos : 1 ≤ limiteBusca fs := Nat.one_le_pow _ _ (by omega)
      refine ⟨limiteBusca fs - 1, by omega, ?_⟩
      have : 1 + (limiteBusca fs - 1) = limiteBusca fs := by omega
      rw [this]
      exact candidato_livre_no_limite fs caminho (fmtData d)
    rcases buscarLivre_spec fs (candidato caminho (fmtData d)) (limiteBusca fs) 1 hlivre
      with ⟨j, heq, hfree, hmin⟩
    refine ⟨candidato caminho (fmtData d) (1 + j), ?_, hfree, ?_, ?_⟩
    · rw [if_pos hbase, heq]
    · rw [candidato_comprimento]
      omega
    · right
      refine ⟨hbase, 1 + j, by omega, rfl, hfree, ?_⟩
      intro m hm1 hmj
      have : m = 1 + (m - 1) := by omega
      rw [this]
      exact hmin (m - 1) (by omega)
  · have hbase' : fsExiste fs (nomeBase caminho (fmtData d)) = false := by
      revert hbase
      cases fsExiste fs (nomeBase caminho (fmtData d)) <;> simp
    refine ⟨nomeBase caminho (fmtData d), ?_, hbase', ?_, Or.inl ⟨hbase', rfl⟩⟩
    · rw [if_neg (by rw [hbase']; exact Bool.false_ne_true)]
    · rw [nomeBase_comprimento]
      omega

/-! ### Failure-shape lemmas for download, validity check and rename -/

theorem baixar_req_falha (env : Env) (fs : FS) (nome m : String)
    (hr : env.respostaHttp = .error m) :
    baixar_nova_tabela env fs nome =
      (.error (.runtimeError ("Falha no download: " ++ m)), fs) := by
  simp [baixar_nova_tabela, hr]

theorem baixar_status_falha (env : Env) (fs : FS) (nome : String) (resp : RespostaHttp)
    (hr : env.respostaHttp = .ok resp) (h4 : 400 ≤ resp.status) (h6 : resp.status < 600) :
    baixar_nova_tabela env fs nome =
      (.error (.runtimeError ("Falha no download: status " ++ pyStrNat resp.status)), fs) := by
  simp [baixar_nova_tabela, hr, h4, h6]

theorem baixar_falha_carac (env : Env) (fs : FS) (nome : String) (e : PyExc) (fs' : FS)
    (h : baixar_nova_tabela env fs nome = (.error e, fs')) :
    (∃ m, e = .runtimeError m) ∧
      (∀ outro, outro ≠ caminhoTemporario nome → fsObter fs' outro = fsObter fs outro) := by
  cases hr : env.respostaHttp with
  | error m =>
    rw [baixar_req_falha env fs nome m hr] at h
    simp only [Prod.mk.injEq, Except.error.injEq] at h
    exact ⟨⟨_, h.1.symm⟩, fun outro _ => by rw [← h.2]⟩
  | ok resp =>
    by_cases hst : 400 ≤ resp.status ∧ resp.status < 600
    · rw [baixar_status_falha env fs nome resp hr hst.1 hst.2] at h
      simp only [Prod.mk.injEq, Except.error.injEq] at h
      exact ⟨⟨_, h.1.symm⟩, fun outro _ => by rw [← h.2]⟩
    · cases hg : env.erroGravacao with
      | some m =>
        simp only [baixar_nova_tabela, hr, hst, if_false, hg, Prod.mk.injEq,
          Except.error.injEq] at h
        refine ⟨⟨_, h.1.symm⟩, fun outro ho => ?_⟩
        rw [← h.2, fsObter_fsRemover_outro fs (caminhoTemporario nome) outro ho]
      | none =>
        by_cases hlen : resp.corpo.length = 0
        · simp only [baixar_nova_tabela, hr, hst, if_false, hg, hlen, if_true,
            Prod.mk.injEq, Except.error.injEq] at h
          refine ⟨⟨_, h.1.symm⟩, fun outro ho => ?_⟩
          rw [← h.2, fsObter_fsRemover_outro _ (caminhoTemporario nome) outro ho,
            fsObter_fsGravar_outro fs (caminhoTemporario nome) outro resp.corpo ho]
        · cases hs : env.erroSubstituir with
          | some m =>
            simp only [baixar_nova_tabela, hr, hst, if_false, hg, hlen, hs,
              Prod.mk.injEq, Except.error.injEq] at h
            refine ⟨⟨_, h.1.symm⟩, fun outro ho => ?_⟩
            rw [← h.2, fsObter_fsRemover_outro _ (caminhoTemporario nome) outro ho,
              fsObter_fsGravar_outro fs (caminhoTemporario nome) outro resp.corpo ho]
          | none =>
            simp only [baixar_nova_tabela, hr, hst, if_false, hg, hlen, hs,
              Prod.mk.injEq] at h
            exact absurd h.1 (by simp)

theorem baixar_falha_preserva_destino (env : Env) (fs : FS) (nome : String)
    (e : PyExc) (fs' : FS) (h : baixar_nova_tabela env fs nome = (.error e, fs')) :
    fsObter fs' nome = fsObter fs nome :=
  (baixar_falha_carac env fs nome e fs' h).2 nome
    (fun he => caminhoTemporario_ne nome (he ▸ rfl))

theorem baixar_falha_tmp (env : Env) (fs : FS) (nome : String) (resp : RespostaHttp)
    (e : PyExc) (fs' : FS) (hr : env.respostaHttp = .ok resp)
    (hst : ¬(400 ≤ resp.status ∧ resp.status < 600))
    (h : baixar_nova_tabela env fs nome = (.error e, fs')) :
    fsObter fs' (caminhoTemporario nome) = none := by
  cases hg : env.erroGravacao with
  | some m =>
    simp only [baixar_nova_tabela, hr, hst, if_false, hg, Prod.mk.injEq] at h
    rw [← h.2]
    exact fsObter_fsRemover_mesmo fs (caminhoTemporario nome)
  | none =>
    by_cases hlen : resp.corpo.length = 0
    · simp only [baixar_nova_tabela, hr, hst, if_false, hg, hlen, if_true,
        Prod.mk.injEq] at h
      rw [← h.2]
      exact fsObter_fsRemover_mesmo _ (caminhoTemporario nome)
    · cases hs : env.erroSubstituir with
      | some m =>
        simp only [baixar_nova_tabela, hr, hst, if_false, hg, hlen, hs,
          Prod.mk.injEq] at h
        rw [← h.2]
        exact fsObter_fsRemover_mesmo _ (caminhoTemporario nome)
      | none =>
        simp only [baixar_nova_tabela, hr, hst, if_false, hg, hlen, hs,
          Prod.mk.injEq] at h
        exact absurd h.1 (by simp)

theorem baixar_sucesso_carac (env : Env) (fs : FS) (nome r : String) (fs' : FS)
    (h : baixar_nova_tabela env fs nome = (.ok r, fs')) :
    ∃ resp, env.respostaHttp = .ok resp ∧ resp.corpo ≠ [] ∧
      fs' = fsGravar (fsRemover (fsGravar fs (caminhoTemporario nome) resp.corpo)
        (caminhoTemporario nome)) nome resp.corpo := by
  cases hr : env.respostaHttp with
  | error m =>
    rw [baixar_req_falha env fs nome m hr] at h
    exact absurd (congrArg Prod.fst h) (by simp)
  | ok resp =>
    by_cases hst : 400 ≤ resp.status ∧ resp.status < 600
    · rw [baixar_status_falha env fs nome resp hr hst.1 hst.2] at h
      exact absurd (congrArg Prod.fst h) (by simp)
    · cases hg : env.erroGravacao with
      | some m =>
        simp only [baixar_nova_tabela, hr, hst, if_false, hg, Prod.mk.injEq] at h
        exact absurd h.1 (by simp)
      | none =>
        by_cases hlen : resp.corpo.length = 0
        · simp only [baixar_nova_tabela, hr, hst, if_false, hg, hlen, if_true,
            Prod.mk.injEq] at h
          exact absurd h.1 (by simp)
        · cases hs : env.erroSubstituir with
          | some m =>
            simp only [baixar_nova_tabela, hr, hst, if_false, hg, hlen, hs,
              Prod.mk.injEq] at h
            exact absurd h.1 (by simp)
          | none =>
            simp only [baixar_nova_tabela, hr, hst, if_false, hg, hlen, hs,
              Prod.mk.injEq] at h
            exact ⟨resp, rfl, fun hc => hlen (by rw [hc]; rfl), h.2.symm⟩

theorem verificar_erro_capturada (env : Env) (fs : FS) (caminho : String) (e : PyExc)
    (h : verificar_validade env fs caminho = .error e) : excecaoCapturada e = true := by
  unfold verificar_validade at h
  cases hl : ler_csv env fs caminho with
  | error e1 =>
    rw [hl] at h
    cases e1 <;> (simp at h; rw [← h]; rfl)
  | ok df =>
    rw [hl] at h
    dsimp only at h
    by_cases hc : "vigenciafim" ∈ df.colunas
    · rw [if_pos hc] at h
      cases hfm : df.vigenciafim.filterMap id with
      | nil =>
        rw [hfm] at h
        simp at h
        rw [← h]
        rfl
      | cons d ds =>
        rw [hfm] at h
        simp at h
    · rw [if_neg hc] at h
      simp at h
      rw [← h]
      rfl

theorem renomear_erro_fnf (env : Env) (fs : FS) (caminho : String) (d : PyDate)
    (e : PyExc) (hren : env.erroRenomear = none)
    (h : renomear_arquivo_antigo env fs caminho d = .error e) :
    ∃ m, e = .fileNotFound m := by
  unfold renomear_arquivo_antigo at h
  cases hob : fsObter fs caminho with
  | none =>
    rw [hob] at h
    simp at h
    exact ⟨_, h.symm⟩
  | some conteudo =>
    rw [hob, hren] at h
    simp at h

/-! ### Behaviour of the reconciler when the rename primitive cannot fail -/

theorem processar_sem_excecao (env : Env) (fs : FS) (caminho : String)
    (hren : env.erroRenomear = none) :
    ∃ r fs', processar_arquivo env fs caminho = (.ok r, fs') := by
  unfold processar_arquivo
  by_cases hex : fsExiste fs caminho = true
  · rw [if_pos hex]
    cases hv : verificar_validade env fs caminho with
    | error e =>
      have hcap := verificar_erro_capturada env fs caminho e hv
      refine ⟨.falhou, fs, ?_⟩
      dsimp only
      rw [if_pos hcap]
    | ok p =>
      obtain ⟨expirado, dataVenc⟩ := p
      dsimp only
      by_cases hexp : expirado = true
      · rw [if_pos hexp]
        cases hr : renomear_arquivo_antigo env fs caminho dataVenc with
        | error e =>
          rcases renomear_erro_fnf env fs caminho dataVenc e hren hr with ⟨m, rfl⟩
          exact ⟨.falhou, fs, by simp [excecaoCapturada]⟩
        | ok p1 =>
          obtain ⟨novo, fs1⟩ := p1
          dsimp only
          rcases hbp : baixar_nova_tabela env fs1 caminho with ⟨rb, fs2⟩
          cases rb with
          | error e =>
            obtain ⟨⟨m, rfl⟩, -⟩ := baixar_falha_carac env fs1 caminho e fs2 hbp
            exact ⟨.falhou, fs2, by simp [excecaoCapturada]⟩
          | ok v => exact ⟨.substituiuVencido, fs2, rfl⟩
      · rw [if_neg hexp]
        exact ⟨.aindaValido, fs, rfl⟩
  · rw [if_neg hex]
    rcases hbp : baixar_nova_tabela env fs caminho with ⟨rb, fs'⟩
    cases rb with
    | error e =>
      obtain ⟨⟨m, rfl⟩, -⟩ := baixar_falha_carac env fs caminho e fs' hbp
      exact ⟨.falhou, fs', by simp [excecaoCapturada]⟩
    | ok v => exact ⟨.baixouNovo, fs', rfl⟩

/-! ### Characterisations of the CSV reader and the validity check -/

theorem verificar_validade_carac (env : Env) (fs : FS) (caminho : String)
    (df : Tabela) (hl : ler_csv env fs caminho = .ok df)
    (hc : "vigenciafim" ∈ df.colunas) (d : PyDate) (ds : List PyDate)
    (hfm : df.vigenciafim.filterMap id = d :: ds) :
    verificar_validade env fs caminho =
      .ok (pyDateLtB (maxData d ds) env.hoje, maxData d ds) := by
  unfold verificar_validade
  rw [hl]
  dsimp only
  rw [if_pos hc, hfm]

theorem verificar_falha_formato (env : Env) (fs : FS) (caminho : String)
    (df : Tabela) (hl : ler_csv env fs caminho = .ok df)
    (hbad : "vigenciafim" ∉ df.colunas ∨ df.vigenciafim.filterMap id = []) :
    ∃ m, verificar_validade env fs caminho = .error (.valueError m) := by
  unfold verificar_validade
  rw [hl]
  dsimp only
  rcases hbad with hbad | hbad
  · rw [if_neg hbad]
    exact ⟨_, rfl⟩
  · by_cases hc : "vigenciafim" ∈ df.colunas
    · rw [if_pos hc, hbad]
      exact ⟨_, rfl⟩
    · rw [if_neg hc]
      exact ⟨_, rfl⟩

theorem processar_erro_verificar (env : Env) (fs : FS) (caminho : String) (e : PyExc)
    (hex : fsExiste fs caminho = true)
    (hv : verificar_validade env fs caminho = .error e) :
    processar_arquivo env fs caminho = (.ok .falhou, fs) := by
  unfold processar_arquivo
  rw [if_pos hex, hv]
  dsimp only
  rw [if_pos (verificar_erro_capturada env fs caminho e hv)]

theorem processar_ainda_valido (env : Env) (fs : FS) (caminho : String) (d : PyDate)
    (hex : fsExiste fs caminho = true)
    (hv : verificar_validade env fs caminho = .ok (false, d)) :
    processar_arquivo env fs caminho = (.ok .aindaValido, fs) := by
  unfold processar_arquivo
  rw [if_pos hex, hv]
  dsimp only
  rw [if_neg Bool.false_ne_true]

theorem processar_ausente (env : Env) (fs : FS) (caminho : String)
    (hex : fsExiste fs caminho = false) :
    processar_arquivo env fs caminho =
      match baixar_nova_tabela env fs caminho with
      | (.error e, fs') =>
        if excecaoCapturada e then (.ok .falhou, fs') else (.error e, fs')
      | (.ok _, fs') => (.ok .baixouNovo, fs') := by
  unfold processar_arquivo
  rw [if_neg (by rw [hex]; exact Bool.false_ne_true)]

/-! ### Batch runs -/

theorem lacoUmaVez_resultados (env : Env) :
    ∀ (nomes : List String) (fs : FS) (flag : Bool),
      lacoUmaVez env nomes fs flag =
        match resultadosLote env nomes fs with
        | (.error e, fs') => (.error e, fs')
        | (.ok bs, fs') => (.ok (if (flag || bs.contains false) then 1 else 0), fs') := by
  intro nomes
  induction nomes with
  | nil =>
    intro fs flag
    show (.ok (if flag then 1 else 0), fs) =
      (Except.ok (if (flag || List.contains [] false) then 1 else 0), fs)
    cases flag <;> rfl
  | cons nome resto ih =>
    intro fs flag
    have hl : lacoUmaVez env (nome :: resto) fs flag =
        match processar_arquivo_bool env fs nome with
        | (.error e, fs') => (.error e, fs')
        | (.ok sucesso, fs') => lacoUmaVez env resto fs' (flag || !sucesso) := rfl
    have hrl : resultadosLote env (nome :: resto) fs =
        match processar_arquivo_bool env fs nome with
        | (.error e, fs') => (.error e, fs')
        | (.ok b, fs') =>
          match resultadosLote env resto fs' with
          | (.error e, fs'') => (.error e, fs'')
          | (.ok bs, fs'') => (.ok (b :: bs), fs'') := rfl
    rw [hl, hrl]
    rcases hp : processar_arquivo_bool env fs nome with ⟨rb, fs'⟩
    cases rb with
    | error e => rfl
    | ok b =>
      dsimp only
      rw [ih fs' (flag || !b)]
      rcases hres : resultadosLote env resto fs' with ⟨rr, fs''⟩
      cases rr with
      | error e => rfl
      | ok bs =>
        dsimp only
        have hcont : (flag || !b || bs.contains false) =
            (flag || List.contains (b :: bs) false) := by
          rw [List.contains_cons]
          cases flag <;> cases b <;> simp
        rw [hcont]

theorem resultadosLote_comprimento (env : Env) :
    ∀ (nomes : List String) (fs : FS) (bs : List Bool) (fs' : FS),
      resultadosLote env nomes fs = (.ok bs, fs') → bs.length = nomes.length := by
  intro nomes
  induction nomes with
  | nil =>
    intro fs bs fs' h
    simp only [resultadosLote, Prod.mk.injEq, Except.ok.injEq] at h
    rw [← h.1]
    rfl
  | cons nome resto ih =>
    intro fs bs fs' h
    unfold resultadosLote at h
    rcases hp : processar_arquivo_bool env fs nome with ⟨rb, fs1⟩
    rw [hp] at h
    cases rb with
    | error e => exact absurd (congrArg Prod.fst h) (by simp)
    | ok b =>
      dsimp only at h
      rcases hres : resultadosLote env resto fs1 with ⟨rr, fs2⟩
      rw [hres] at h
      cases rr with
      | error e => exact absurd (congrArg Prod.fst h) (by simp)
      | ok bs1 =>
        have hbs : b :: bs1 = bs := by
          have := congrArg Prod.fst h
          simpa using this
        rw [← hbs, List.length_cons, ih fs1 bs1 fs2 hres, List.length_cons]

/-! ### Date order lemmas -/

theorem pyDateLtB_false_iff (a b : PyDate) :
    pyDateLtB a b = false ↔ ¬ dataAntes a b := by
  simp [pyDateLtB]

theorem pyDateLtB_asymm (a b : PyDate) (h : pyDateLtB a b = true) :
    pyDateLtB b a = false := by
  rw [pyDateLtB_false_iff]
  have h1 : dataAntes a b := by simpa [pyDateLtB] using h
  unfold dataAntes at h1 ⊢
  omega

theorem pyDateLtB_false_trans (a b c : PyDate)
    (h1 : pyDateLtB a b = false) (h2 : pyDateLtB b c = false) :
    pyDateLtB a c = false := by
  rw [pyDateLtB_false_iff] at h1 h2 ⊢
  unfold dataAntes at h1 h2 ⊢
  omega

theorem pyDateLtB_irrefl (a : PyDate) : pyDateLtB a a = false := by
  rw [pyDateLtB_false_iff]
  unfold dataAntes
  omega

theorem maxData_passo (d x : PyDate) (xs : List PyDate) :
    maxData d (x :: xs) = maxData (if pyDateLtB d x then x else d) xs := by
  simp [maxData]

theorem maxData_mem (d : PyDate) (ds : List PyDate) :
    maxData d ds = d ∨ maxData d ds ∈ ds := by
  induction ds generalizing d with
  | nil => left; rfl
  | cons x xs ih =>
    rw [maxData_passo]
    rcases ih (if pyDateLtB d x then x else d) with h | h
    · rw [h]
      by_cases hlt : pyDateLtB d x = true
      · rw [if_pos hlt]
        right
        exact List.mem_cons_self x xs
      · rw [if_neg hlt]
        left
        rfl
    · right
      exact List.mem_cons_of_mem x h

theorem maxData_ge (d : PyDate) (ds : List PyDate) :
    ∀ x, (x = d ∨ x ∈ ds) → pyDateLtB (maxData d ds) x = false := by
  induction ds generalizing d with
  | nil =>
    intro x hx
    rcases hx with hx | hx
    · subst hx
      show pyDateLtB x x = false
      exact pyDateLtB_irrefl x
    · simp at hx
  | cons y ys ih =>
    intro x hx
    have hacc_d : pyDateLtB (if pyDateLtB d y then y else d) d = false := by
      by_cases hlt : pyDateLtB d y = true
      · rw [if_pos hlt]
        exact pyDateLtB_asymm d y hlt
      · rw [if_neg hlt]
        exact pyDateLtB_irrefl d
    have hacc_y : pyDateLtB (if pyDateLtB d y then y else d) y = false := by
      by_cases hlt : pyDateLtB d y = true
      · rw [if_pos hlt]
        exact pyDateLtB_irrefl y
      · rw [if_neg hlt]
        exact Bool.not_eq_true _ |>.mp hlt
    have hres_acc : pyDateLtB (maxData (if pyDateLtB d y then y else d) ys)
        (if pyDateLtB d y then y else d) = false :=
      ih (if pyDateLtB d y then y else d) _ (Or.inl rfl)
    rcases hx with hx | hx
    · subst hx
      rw [maxData_passo]
      exact pyDateLtB_false_trans _ _ _ hres_acc hacc_d
    · rcases List.mem_cons.mp hx with hx | hx
      · subst hx
        rw [maxData_passo]
        exact pyDateLtB_false_trans _ _ _ hres_acc hacc_y
      · rw [maxData_passo]
        exact ih (if pyDateLtB d y then y else d) x (Or.inr hx)

/-! ## Claim theorems -/

/-- Claim C1, amended: `processar_arquivo` converts every failure raised by
its steps into the reported outcome `False` — except an OS-level error of
the raw `Path.rename` call (for example `PermissionError`), which is not
in the caught tuple `(FileNotFoundError, ValueError, RuntimeError)` and
propagates past the function's boundary.  Here: whenever the rename
primitive does not fail at the OS level, the result is always an `.ok`
outcome, never a propagated exception. -/
theorem processar_arquivo_converte_falhas (env : Env) (fs : FS) (caminho : String)
    (hren : env.erroRenomear = none) :
    ∃ r fs', processar_arquivo env fs caminho = (.ok r, fs') :=
  processar_sem_excecao env fs caminho hren

/-- Witness for claim C1's amended theorem: a concrete reconciliation in
which parsing fails (bytes `[9]` are unreadable) still returns an `.ok`
outcome. -/
theorem processar_arquivo_converte_falhas_aplicacao :
    ∃ r fs', processar_arquivo envLote fsLote "TabelaIBPTaxBA15.1.B.csv" = (.ok r, fs') :=
  processar_arquivo_converte_falhas envLote fsLote "TabelaIBPTaxBA15.1.B.csv" rfl

/-- Counterexample to claim C1 as stated: when the file is expired and the
OS-level rename fails with a `PermissionError`, the exception propagates
out of `processar_arquivo` instead of being converted into `False`. -/
theorem processar_arquivo_excecao_rename_escapa :
    (processar_arquivo envQuedaRenomear fsVencido "Tabela.csv").1 =
      .error (.osError "Permission denied") := rfl

/-- Claim C2, amended: every failing download leaves the bytes at the
canonical destination untouched and surfaces the failure as a
`RuntimeError`; a request-level failure (a `RequestException`, or
`raise_for_status` on a 4xx/5xx status) leaves the whole filesystem
unchanged — including any pre-existing stale `<path>.tmp`, which is *not*
removed — while a failure after the request (empty body, write or replace
error) leaves no temporary file behind. -/
theorem baixar_falha_preserva_destino_e_tmp (env : Env) (fs : FS) (destino : String) :
    (∀ e fs', baixar_nova_tabela env fs destino = (.error e, fs') →
      fsObter fs' destino = fsObter fs destino ∧ ∃ m, e = .runtimeError m) ∧
    (∀ m, env.respostaHttp = .error m →
      baixar_nova_tabela env fs destino =
        (.error (.runtimeError ("Falha no download: " ++ m)), fs)) ∧
    (∀ resp, env.respostaHttp = .ok resp → 400 ≤ resp.status → resp.status < 600 →
      baixar_nova_tabela env fs destino =
        (.error (.runtimeError ("Falha no download: status " ++ pyStrNat resp.status)), fs)) ∧
    (∀ resp e fs', env.respostaHttp = .ok resp →
      ¬(400 ≤ resp.status ∧ resp.status < 600) →
      baixar_nova_tabela env fs destino = (.error e, fs') →
      fsObter fs' (caminhoTemporario destino) = none) := by
  refine ⟨?_, ?_, ?_, ?_⟩
  · intro e fs' h
    obtain ⟨hm, hpres⟩ := baixar_falha_carac env fs destino e fs' h
    exact ⟨hpres destino (fun he => caminhoTemporario_ne destino he.symm), hm⟩
  · intro m hm
    exact baixar_req_falha env fs destino m hm
  · intro resp hr h4 h6
    exact baixar_status_falha env fs destino resp hr h4 h6
  · intro resp e fs' hr hst h
    exact baixar_falha_tmp env fs destino resp e fs' hr hst h

/-- Witness for claim C2's amended theorem: a 200 response with an empty
body fails, preserves the destination bytes and leaves no temporary
file. -/
theorem baixar_falha_preserva_destino_e_tmp_aplicacao :
    fsObter (baixar_nova_tabela envCorpoVazio [("f.csv", [3])] "f.csv").2 "f.csv" =
        fsObter [("f.csv", [3])] "f.csv" ∧
      fsObter (baixar_nova_tabela envCorpoVazio [("f.csv", [3])] "f.csv").2
        (caminhoTemporario "f.csv") = none := by
  have h := baixar_falha_preserva_destino_e_tmp envCorpoVazio [("f.csv", [3])] "f.csv"
  exact ⟨(h.1 _ _ rfl).1, h.2.2.2 ⟨200, []⟩ _ _ rfl (by decide) rfl⟩

/-- Counterexample to claim C2 as stated: when the request itself fails
(here a network error) with a stale `f.csv.tmp` already on disk, the
temporary path still exists after the failed download attempt, so "the
temporary file `<path>.tmp` does not exist afterwards" is false. -/
theorem baixar_tmp_antigo_sobrevive :
    (baixar_nova_tabela envSemRede fsTmpAntigo "f.csv").1 =
        .error (.runtimeError "Falha no download: ConnectionError") ∧
      fsObter (baixar_nova_tabela envSemRede fsTmpAntigo "f.csv").2
        (caminhoTemporario "f.csv") = some [7] := ⟨rfl, rfl⟩

/-- Claim C3: renaming an expired file never overwrites an existing file;
the target name is `<stem>_<DD-MM-YYYY><ext>` built from the validity
date, and when that name is taken the name `<stem>_<DD-MM-YYYY>(N)<ext>`
is chosen with `N` the smallest positive integer whose name is free. -/
theorem renomear_nunca_sobrescreve (env : Env) (fs : FS) (caminho : String)
    (d : PyDate) (conteudo : List Nat)
    (hob : fsObter fs caminho = some conteudo)
    (hren : env.erroRenomear = none) :
    ∃ novo, renomear_arquivo_antigo env fs caminho d =
        .ok (novo, fsGravar (fsRemover fs caminho) novo conteudo) ∧
      fsExiste fs novo = false ∧
      ((fsExiste fs (nomeBase caminho (fmtData d)) = false ∧
          novo = nomeBase caminho (fmtData d)) ∨
        (fsExiste fs (nomeBase caminho (fmtData d)) = true ∧
          ∃ n, 1 ≤ n ∧ novo = candidato caminho (fmtData d) n ∧
            fsExiste fs (candidato caminho (fmtData d) n) = false ∧
            ∀ m, 1 ≤ m → m < n →
              fsExiste fs (candidato caminho (fmtData d) m) = true)) := by
  rcases renomear_carac env fs caminho d conteudo hob hren with ⟨novo, h1, h2, -, h4⟩
  exact ⟨novo, h1, h2, h4⟩

/-- Witness for claim C3's theorem at a concrete file and date. -/
theorem renomear_nunca_sobrescreve_aplicacao :
    ∃ novo, renomear_arquivo_antigo envLote [("A.csv", [1])] "A.csv" ⟨2000, 1, 2⟩ =
        .ok (novo, fsGravar (fsRemover [("A.csv", [1])] "A.csv") novo [1]) ∧
      fsExiste [("A.csv", [1])] novo = false ∧
      ((fsExiste [("A.csv", [1])] (nomeBase "A.csv" (fmtData ⟨2000, 1, 2⟩)) = false ∧
          novo = nomeBase "A.csv" (fmtData ⟨2000, 1, 2⟩)) ∨
        (fsExiste [("A.csv", [1])] (nomeBase "A.csv" (fmtData ⟨2000, 1, 2⟩)) = true ∧
          ∃ n, 1 ≤ n ∧ novo = candidato "A.csv" (fmtData ⟨2000, 1, 2⟩) n ∧
            fsExiste [("A.csv", [1])] (candidato "A.csv" (fmtData ⟨2000, 1, 2⟩) n) = false ∧
            ∀ m, 1 ≤ m → m < n →
              fsExiste [("A.csv", [1])] (candidato "A.csv" (fmtData ⟨2000, 1, 2⟩) m) = true)) :=
  renomear_nunca_sobrescreve envLote [("A.csv", [1])] "A.csv" ⟨2000, 1, 2⟩ [1] rfl rfl

/-- Claim C4: on a file that parses and has at least one valid date in the
`vigenciafim` column (unparsable entries discarded, not fatal), the
validity check returns the maximum of the valid dates and reports expired
exactly when that date is strictly before today — a pure date comparison,
with no time-of-day component in the model of `datetime.date`. -/
theorem verificar_validade_maximo (env : Env) (fs : FS) (caminho : String)
    (df : Tabela) (d : PyDate) (ds : List PyDate)
    (hl : ler_csv env fs caminho = .ok df)
    (hc : "vigenciafim" ∈ df.colunas)
    (hfm : df.vigenciafim.filterMap id = d :: ds) :
    ∃ exp u, verificar_validade env fs caminho = .ok (exp, u) ∧
      u ∈ d :: ds ∧ (∀ x ∈ d :: ds, ¬ dataAntes u x) ∧
      (exp = true ↔ dataAntes u env.hoje) := by
  refine ⟨_, _, verificar_validade_carac env fs caminho df hl hc d ds hfm, ?_, ?_, ?_⟩
  · rcases maxData_mem d ds with h | h
    · rw [h]
      exact List.mem_cons_self d ds
    · exact List.mem_cons_of_mem d h
  · intro x hx
    have hge := maxData_ge d ds x
      (by rcases List.mem_cons.mp hx with h | h; exacts [Or.inl h, Or.inr h])
    rw [pyDateLtB_false_iff] at hge
    exact hge
  · simp [pyDateLtB]

/-- Witness for claim C4's theorem: a table with one valid date and one
coerced-away entry. -/
theorem verificar_validade_maximo_aplicacao :
    ∃ exp u, verificar_validade envLote [("A.csv", [1])] "A.csv" = .ok (exp, u) ∧
      u ∈ [(⟨2099, 12, 31⟩ : PyDate)] ∧
      (∀ x ∈ [(⟨2099, 12, 31⟩ : PyDate)], ¬ dataAntes u x) ∧
      (exp = true ↔ dataAntes u envLote.hoje) :=
  verificar_validade_maximo envLote [("A.csv", [1])] "A.csv" tabelaValida
    ⟨2099, 12, 31⟩ [] rfl (by decide) rfl

/-- Claim C5: an existing file whose content lacks the `vigenciafim`
column, or yields zero parseable dates in it, makes reconciliation report
a failure (via a format `ValueError`) with the filesystem completely
unchanged: no rename, no download. -/
theorem formato_invalido_sem_mutacao (env : Env) (fs : FS) (caminho : String)
    (df : Tabela)
    (hex : fsExiste fs caminho = true)
    (hl : ler_csv env fs caminho = .ok df)
    (hbad : "vigenciafim" ∉ df.colunas ∨ df.vigenciafim.filterMap id = []) :
    processar_arquivo env fs caminho = (.ok .falhou, fs) := by
  rcases verificar_falha_formato env fs caminho df hl hbad with ⟨m, hv⟩
  exact processar_erro_verificar env fs caminho _ hex hv

/-- Witness for claim C5's theorem: a file whose table has no
`vigenciafim` column is rejected without touching the filesystem. -/
theorem formato_invalido_sem_mutacao_aplicacao :
    processar_arquivo envSemFormato [("T.csv", [5])] "T.csv" =
      (.ok .falhou, [("T.csv", [5])]) :=
  formato_invalido_sem_mutacao envSemFormato [("T.csv", [5])] "T.csv"
    tabelaSemColuna rfl rfl (Or.inl (by decide))

/-- Claim C6, amended: reconciliation is idempotent provided the file left
at the canonical path by the first run is still parseable and not expired
at the unchanged current date — then the second run reports still-valid
and performs no filesystem mutation.  Unconditional idempotence fails:
the code never validates a freshly downloaded file, so a server that
serves an already-expired table makes the second run rename and download
again (see the counterexample). -/
theorem segunda_execucao_ainda_valida (env : Env) (fs fs1 : FS) (caminho : String)
    (r1 : Resultado) (d : PyDate)
    (_h1 : processar_arquivo env fs caminho = (.ok r1, fs1))
    (hex : fsExiste fs1 caminho = true)
    (hv : verificar_validade env fs1 caminho = .ok (false, d)) :
    processar_arquivo env fs1 caminho = (.ok .aindaValido, fs1) :=
  processar_ainda_valido env fs1 caminho d hex hv

/-- Witness for claim C6's amended theorem: a valid file makes the run a
no-op, so the run after it is one as well. -/
theorem segunda_execucao_ainda_valida_aplicacao :
    processar_arquivo envLote [("A.csv", [1])] "A.csv" =
      (.ok .aindaValido, [("A.csv", [1])]) :=
  segunda_execucao_ainda_valida envLote [("A.csv", [1])] [("A.csv", [1])] "A.csv"
    .aindaValido ⟨2099, 12, 31⟩ rfl rfl rfl

/-- Counterexample to claim C6 as stated: the input file has the required
date column, the current date never changes and nothing expires between
the runs, yet because the downloaded replacement is itself already
expired the second run reports replaced-expired — not still-valid — and
mutates the filesystem again. -/
theorem segunda_execucao_pode_mutar :
    (processar_arquivo envDuasVencidas [("T.csv", [3])] "T.csv").1 =
        .ok .substituiuVencido ∧
      (processar_arquivo envDuasVencidas
        (processar_arquivo envDuasVencidas [("T.csv", [3])] "T.csv").2 "T.csv").1 =
        .ok .substituiuVencido ∧
      (processar_arquivo envDuasVencidas
          (processar_arquivo envDuasVencidas [("T.csv", [3])] "T.csv").2 "T.csv").2 ≠
        (processar_arquivo envDuasVencidas [("T.csv", [3])] "T.csv").2 :=
  ⟨rfl, rfl, by decide⟩

/-- Claim C7, amended: when no file exists at the target path and the
reconciliation reports success, the outcome is downloaded-new and the
canonical path holds a non-empty file.  The unqualified claim — that the
operation *always* ends with the path populated — fails when the download
itself fails (see the counterexample). -/
theorem ausente_sucesso_baixa_novo (env : Env) (fs : FS) (caminho : String)
    (r : Resultado) (fs' : FS)
    (habs : fsExiste fs caminho = false)
    (h : processar_arquivo env fs caminho = (.ok r, fs'))
    (hr : r ≠ .falhou) :
    r = .baixouNovo ∧ ∃ corpo, fsObter fs' caminho = some corpo ∧ corpo ≠ [] := by
  rw [processar_ausente env fs caminho habs] at h
  rcases hbp : baixar_nova_tabela env fs caminho with ⟨rb, fsb⟩
  rw [hbp] at h
  cases rb with
  | error e =>
    dsimp only at h
    by_cases hcap : excecaoCapturada e = true
    · rw [if_pos hcap] at h
      have hfalhou : Resultado.falhou = r := by
        have := congrArg Prod.fst h
        simpa using this
      exact absurd hfalhou.symm hr
    · rw [if_neg hcap] at h
      exact absurd (congrArg Prod.fst h) (by simp)
  | ok v =>
    dsimp only at h
    have hfs : fsb = fs' := by
      have := congrArg Prod.snd h
      simpa using this
    have hnovo : Resultado.baixouNovo = r := by
      have := congrArg Prod.fst h
      simpa using this
    rcases baixar_sucesso_carac env fs caminho v fsb hbp with ⟨resp, -, hcorpo, hfsb⟩
    refine ⟨hnovo.symm, resp.corpo, ?_, hcorpo⟩
    rw [← hfs, hfsb]
    exact fsObter_fsGravar_mesmo _ caminho resp.corpo

/-- Witness for claim C7's amended theorem: downloading into an empty
filesystem populates the canonical path with the non-empty body. -/
theorem ausente_sucesso_baixa_novo_aplicacao :
    Resultado.baixouNovo = Resultado.baixouNovo ∧
      ∃ corpo, fsObter (processar_arquivo envLote [] "X.csv").2 "X.csv" = some corpo ∧
        corpo ≠ [] :=
  ausente_sucesso_baixa_novo envLote [] "X.csv" .baixouNovo
    (processar_arquivo envLote [] "X.csv").2 rfl rfl (by decide)

/-- Counterexample to claim C7 as stated: with the file absent and the
network down, reconciliation ends with outcome failed and the canonical
path still empty, not "always populated with outcome downloaded-new". -/
theorem ausente_download_falha_fica_ausente :
    (processar_arquivo envSemRede [] "X.csv").1 = .ok .falhou ∧
      fsObter (processar_arquivo envSemRede [] "X.csv").2 "X.csv" = none := ⟨rfl, rfl⟩

/-- Claim C8: `ler_csv` tries exactly the three decoding strategies
`{}`, `{"encoding": "utf-8"}`, `{"encoding": "latin-1"}` in that order,
returns the first success, and when all three fail raises the error of
the last attempt. -/
theorem ler_csv_tres_estrategias (env : Env) (fs : FS) (caminho : String) :
    (∀ t, tentativaLerCsv env fs caminho .padrao = .ok t →
      ler_csv env fs caminho = .ok t) ∧
    (∀ e1 t, tentativaLerCsv env fs caminho .padrao = .error e1 →
      tentativaLerCsv env fs caminho .utf8 = .ok t →
      ler_csv env fs caminho = .ok t) ∧
    (∀ e1 e2 t, tentativaLerCsv env fs caminho .padrao = .error e1 →
      tentativaLerCsv env fs caminho .utf8 = .error e2 →
      tentativaLerCsv env fs caminho .latin1 = .ok t →
      ler_csv env fs caminho = .ok t) ∧
    (∀ e1 e2 e3, tentativaLerCsv env fs caminho .padrao = .error e1 →
      tentativaLerCsv env fs caminho .utf8 = .error e2 →
      tentativaLerCsv env fs caminho .latin1 = .error e3 →
      ler_csv env fs caminho = .error e3) := by
  refine ⟨?_, ?_, ?_, ?_⟩
  · intro t h1
    simp [ler_csv, tentativas, lacoLerCsv, h1]
  · intro e1 t h1 h2
    simp [ler_csv, tentativas, lacoLerCsv, h1, h2]
  · intro e1 e2 t h1 h2 h3
    simp [ler_csv, tentativas, lacoLerCsv, h1, h2, h3]
  · intro e1 e2 e3 h1 h2 h3
    simp [ler_csv, tentativas, lacoLerCsv, h1, h2, h3]

/-- Witness for claim C8's theorem: on a missing file every attempt raises
`FileNotFoundError` and the last attempt's error is propagated. -/
theorem ler_csv_tres_estrategias_aplicacao :
    ler_csv envLote [] "x.csv" =
      .error (.fileNotFound ("Arquivo inexistente: " ++ "x.csv")) :=
  (ler_csv_tres_estrategias envLote [] "x.csv").2.2.2 _ _ _ rfl rfl rfl

/-- Claim C9, amended: in run-once mode the exit code is 1 exactly when at
least one configured file failed (0 otherwise) and every file is
processed even after a failure; but not "in every run mode": the
background loop only logs the per-cycle code, so a graceful stop returns
`None` (process exit code 0) regardless of file failures, and 1 is
returned only for a lock-acquisition failure (see the counterexample). -/
theorem codigo_saida_lote (env : Env) (fs : FS) :
    (∀ c fs', executar_uma_vez env fs = (.ok c, fs') →
      ∃ bs, resultadosLote env ARQUIVOS_ORIGINAIS fs = (.ok bs, fs') ∧
        bs.length = ARQUIVOS_ORIGINAIS.length ∧
        c = (if bs.contains false then 1 else 0)) ∧
    (fsExiste fs ARQUIVO_LOCK = true →
      ∀ n, executar_em_background env fs n = (.ok (some 1), fs)) ∧
    (∀ n r fs', executar_em_background env fs n = (.ok r, fs') →
      r = none ∨ r = some 1) := by
  refine ⟨?_, ?_, ?_⟩
  · intro c fs' h
    unfold executar_uma_vez at h
    rw [lacoUmaVez_resultados env ARQUIVOS_ORIGINAIS fs false] at h
    rcases hres : resultadosLote env ARQUIVOS_ORIGINAIS fs with ⟨rr, fs''⟩
    rw [hres] at h
    cases rr with
    | error e =>
      dsimp only at h
      exact absurd (congrArg Prod.fst h) (by simp)
    | ok bs =>
      dsimp only at h
      have h1 : (if (false || bs.contains false) then 1 else 0) = c := by
        have := congrArg Prod.fst h
        simpa using this
      have h2 : fs'' = fs' := by
        have := congrArg Prod.snd h
        simpa using this
      refine ⟨bs, by rw [h2],
        resultadosLote_comprimento env ARQUIVOS_ORIGINAIS fs bs fs'' hres, ?_⟩
      rw [← h1, Bool.false_or]
  · intro hlock n
    unfold executar_em_background
    rw [if_pos hlock]
  · intro n r fs' h
    unfold executar_em_background at h
    by_cases hlock : fsExiste fs ARQUIVO_LOCK = true
    · rw [if_pos hlock] at h
      right
      have := congrArg Prod.fst h
      simpa using this.symm
    · rw [if_neg hlock] at h
      rcases hc : lacoCiclos env n (fsGravar fs ARQUIVO_LOCK []) with ⟨rc, fsc⟩
      rw [hc] at h
      cases rc with
      | error e =>
        dsimp only at h
        exact absurd (congrArg Prod.fst h) (by simp)
      | ok u =>
        dsimp only at h
        left
        have := congrArg Prod.fst h
        simpa using this.symm

/-- Witness for claim C9's amended theorem: the batch where the first file
is unreadable and the second downloads fine yields exit code 1, with both
files processed. -/
theorem codigo_saida_lote_aplicacao :
    ∃ bs, resultadosLote envLote ARQUIVOS_ORIGINAIS fsLote =
        (.ok bs, (executar_uma_vez envLote fsLote).2) ∧
      bs.length = ARQUIVOS_ORIGINAIS.length ∧
      (1 : Nat) = (if bs.contains false then 1 else 0) :=
  (codigo_saida_lote envLote fsLote).1 1 (executar_uma_vez envLote fsLote).2 rfl

/-- Counterexample to claim C9 as stated: a background run whose only
cycle had a failing file still returns `None` — process exit code 0 —
because `executar_em_background` discards the per-cycle exit code. -/
theorem background_ignora_falha_ciclo :
    (executar_em_background envLote fsLote 1).1 = .ok none ∧
      codigoSaidaProcesso none = 0 ∧
      (executar_uma_vez envLote (fsGravar fsLote ARQUIVO_LOCK [])).1 = .ok 1 :=
  ⟨rfl, rfl, rfl⟩

/-- Claim C10: the replaced-expired path is not atomic — the rename
precedes the download, so when the rename succeeds and the download then
fails, reconciliation reports failure, the canonical path holds no file
(the next cycle will treat it as absent), and the original bytes survive
only under the renamed historical name. -/
theorem vencido_renomeia_antes_de_baixar (env : Env) (fs : FS) (caminho : String)
    (conteudo : List Nat) (d : PyDate) (m : String)
    (hob : fsObter fs caminho = some conteudo)
    (hv : verificar_validade env fs caminho = .ok (true, d))
    (hren : env.erroRenomear = none)
    (hget : env.respostaHttp = .error m) :
    ∃ novo, novo ≠ caminho ∧
      processar_arquivo env fs caminho =
        (.ok .falhou, fsGravar (fsRemover fs caminho) novo conteudo) ∧
      fsExiste (fsGravar (fsRemover fs caminho) novo conteudo) caminho = false ∧
      fsObter (fsGravar (fsRemover fs caminho) novo conteudo) novo = some conteudo := by
  rcases renomear_carac env fs caminho d conteudo hob hren with ⟨novo, hre, -, hlen, -⟩
  have hne : novo ≠ caminho := by
    intro he
    rw [he] at hlen
    omega
  refine ⟨novo, hne, ?_, ?_, fsObter_fsGravar_mesmo _ novo conteudo⟩
  · unfold processar_arquivo
    have hex : fsExiste fs caminho = true := by
      unfold fsExiste
      rw [hob]
      rfl
    rw [if_pos hex, hv]
    dsimp only
    rw [if_pos rfl, hre]
    dsimp only
    rw [baixar_req_falha env _ caminho m hget]
    simp [excecaoCapturada]
  · unfold fsExiste
    rw [fsObter_fsGravar_outro _ novo caminho conteudo (fun he => hne he.symm),
      fsObter_fsRemover_mesmo]
    rfl

/-- Witness for claim C10's theorem: an expired file with the network down
is renamed away and the canonical path is left empty. -/
theorem vencido_renomeia_antes_de_baixar_aplicacao :
    ∃ novo, novo ≠ "Tabela.csv" ∧
      processar_arquivo envSemRede fsVencido "Tabela.csv" =
        (.ok .falhou, fsGravar (fsRemover fsVencido "Tabela.csv") novo [65]) ∧
      fsExiste (fsGravar (fsRemover fsVencido "Tabela.csv") novo [65]) "Tabela.csv" = false ∧
      fsObter (fsGravar (fsRemover fsVencido "Tabela.csv") novo [65]) novo = some [65] :=
  vencido_renomeia_antes_de_baixar envSemRede fsVencido "Tabela.csv" [65]
    ⟨2020, 1, 1⟩ "ConnectionError" rfl rfl rfl rfl

end MonitorTabelas
